import Mathlib

/-!
Verification development for the flight price monitor
(`src/amadeus_flight_search.py`).

The embedding below translates the program into Lean:

* `Offer` models the raw dict-like offer records returned by the pricing
  capability; every sub-field the code accesses with `.get` and a default is an
  `Option`.
* `FlightRecord` models one normalized row; prices are rationals (the spec's
  decimals).
* `CsvFile` models the output file as a header line plus a list of data rows,
  each row a list of cells; `Option CsvFile` models existence of the file on
  disk.
* `save_results_to_csv`, `analyze_and_display`, `find_cheap_destinations` and
  `mainRun` are direct translations of the Python functions of the same names;
  `df.sort_values('price')` is embedded as `List.insertionSort` on the price
  ordering (ascending), I/O success is an explicit boolean oracle, and
  `datetime.now()` is an explicit `now : String` parameter.
-/

namespace FlightMonitor

/-- The `total` sub-object of an offer's `price` field; `none` models a missing
`'total'` key (the code reads it as `.get('total', 0)`). -/
structure OfferPrice where
  total : Option ℚ
deriving DecidableEq

/-- A raw offer as returned by the pricing capability.  Each field is optional
because the code reads them with `flight.get(key, default)`. -/
structure Offer where
  destination : Option String
  departureDate : Option String
  returnDate : Option String
  price : Option OfferPrice
deriving DecidableEq

/-- One normalized row, as built in the loop of `save_results_to_csv`. -/
structure FlightRecord where
  destination : String
  departure_date : String
  return_date : String
  price : ℚ
  search_date : String
deriving DecidableEq

/-- One cell of the CSV file: the code writes strings and numbers. -/
inductive CsvValue where
  | str (s : String)
  | num (q : ℚ)
deriving DecidableEq

/-- The output file: a header line and the data rows (`to_csv` with
`header=False` appends rows only). -/
structure CsvFile where
  header : List String
  rows : List (List CsvValue)
deriving DecidableEq

/-- Normalization of one offer, from the loop body of `save_results_to_csv`:
`destination` defaults to `'Unknown'`, the date fields to `''`, and
`flight.get('price', {}).get('total', 0)` to `0`. -/
def normalizeOffer (now : String) (o : Offer) : FlightRecord :=
  { destination := o.destination.getD "Unknown"
    departure_date := o.departureDate.getD ""
    return_date := o.returnDate.getD ""
    price := ((o.price.getD ⟨none⟩).total).getD 0
    search_date := now }

/-- The ordering used by `df.sort_values('price')`: compare rows by price. -/
def priceLE (a b : FlightRecord) : Prop := a.price ≤ b.price

instance : DecidableRel priceLE := fun a b => inferInstanceAs (Decidable (a.price ≤ b.price))

instance : IsTotal FlightRecord priceLE := ⟨fun a b => le_total a.price b.price⟩

instance : IsTrans FlightRecord priceLE := ⟨fun _ _ _ h1 h2 => le_trans h1 h2⟩

/-- `df.sort_values('price')`: sort the batch ascending by price.  pandas'
default algorithm (`kind='quicksort'`) does not document a tie order among
equal prices, so this embedding — a stable insertion sort — is one admissible
output; only properties invariant under the tie order (membership, length,
row counts, non-decreasing prices) are claimed from it. -/
def sortByPrice (l : List FlightRecord) : List FlightRecord := l.insertionSort priceLE

/-- The five cells a normalized record contributes to the file. -/
def recordRow (r : FlightRecord) : List CsvValue :=
  [.str r.destination, .str r.departure_date, .str r.return_date, .num r.price,
   .str r.search_date]

/-- Header written when a non-empty batch creates the file. -/
def recordHeader : List String :=
  ["destination", "departure_date", "return_date", "price", "search_date"]

/-- The sentinel placeholder record built when a run yields zero offers. -/
def sentinelRecord (now : String) : FlightRecord :=
  { destination := "No data found", departure_date := "", return_date := ""
    price := 0, search_date := now }

/-- The `note` value of the sentinel row. -/
def sentinelNote : String := "Test environment or no results available"

/-- The six cells of the sentinel row (it carries the extra `note` field). -/
def sentinelRow (now : String) : List CsvValue :=
  [.str "No data found", .str "", .str "", .num 0, .str now, .str sentinelNote]

/-- Header written by the empty branch (six columns, `note` included). -/
def sentinelHeader : List String :=
  ["destination", "departure_date", "return_date", "price", "search_date", "note"]

/-- The whole file written by the empty branch: header plus the one sentinel row. -/
def sentinelFile (now : String) : CsvFile :=
  { header := sentinelHeader, rows := [sentinelRow now] }

/-- Result of one `save_results_to_csv` call: the returned dataframe (`none`
models the Python `None` return), the file state after the call, and whether an
exception escaped the function. -/
structure SaveResult where
  df : Option (List FlightRecord)
  file : Option CsvFile
  raised : Bool
deriving DecidableEq

/-- Translation of `save_results_to_csv(data, filename)`.

* `fs` is the file state before the call (`none`: the file does not exist).
* `writeOk` is the I/O oracle for the single `to_csv` write the call performs.
* Empty `data`: the sentinel frame is written to a fresh file (plain `to_csv`,
  which truncates); this branch is not inside a `try`, so a write failure
  escapes (`raised := true`).
* Non-empty `data`: normalize, sort by price, then append without header if the
  file exists, else create it with the header.  This branch is inside
  `try/except`, so a write failure is caught and the function returns `None`. -/
def save_results_to_csv (data : List Offer) (now : String) (fs : Option CsvFile)
    (writeOk : Bool) : SaveResult :=
  if data = [] then
    if writeOk then
      { df := some [sentinelRecord now], file := some (sentinelFile now), raised := false }
    else
      { df := none, file := fs, raised := true }
  else
    let df := sortByPrice (data.map (normalizeOffer now))
    if writeOk then
      match fs with
      | some f =>
          { df := some df
            file := some { header := f.header, rows := f.rows ++ df.map recordRow }
            raised := false }
      | none =>
          { df := some df
            file := some { header := recordHeader, rows := df.map recordRow }
            raised := false }
    else
      { df := none, file := fs, raised := false }

/-- What `analyze_and_display` prints: `noData` is true when one of the early
returns fired; otherwise `displayed` is the TOP-10 listing and the three price
statistics and the count are reported. -/
structure Report where
  noData : Bool
  displayed : List FlightRecord
  count : Nat
  minPrice : ℚ
  maxPrice : ℚ
  meanPrice : ℚ
deriving DecidableEq

/-- The report produced by the early-return branches of `analyze_and_display`. -/
def emptyReport : Report :=
  { noData := true, displayed := [], count := 0, minPrice := 0, maxPrice := 0, meanPrice := 0 }

/-- `Series.min` of a price column (only used on non-empty columns). -/
def listMinQ : List ℚ → ℚ
  | [] => 0
  | x :: xs => xs.foldl min x

/-- `Series.max` of a price column (only used on non-empty columns). -/
def listMaxQ : List ℚ → ℚ
  | [] => 0
  | x :: xs => xs.foldl max x

/-- `Series.mean` of a price column. -/
def listMeanQ (l : List ℚ) : ℚ := l.sum / l.length

/-- `df[df['destination'] != 'No data found']`: drop the sentinel rows. -/
def validRecords (l : List FlightRecord) : List FlightRecord :=
  l.filter (fun r => r.destination ≠ "No data found")

/-- Translation of `analyze_and_display(df)`: early return when `df` is `None`
or empty, filter the sentinel rows, early return when nothing valid remains,
otherwise show `head(10)` (no re-sorting happens here) and the statistics over
the filtered rows. -/
def analyze_and_display (df : Option (List FlightRecord)) : Report :=
  match df with
  | none => emptyReport
  | some l =>
      if l = [] then emptyReport
      else
        let valid := validRecords l
        if valid = [] then emptyReport
        else
          { noData := false
            displayed := valid.take 10
            count := valid.length
            minPrice := listMinQ (valid.map (fun r => r.price))
            maxPrice := listMaxQ (valid.map (fun r => r.price))
            meanPrice := listMeanQ (valid.map (fun r => r.price)) }

/-- One invocation of the pricing capability: a successful offer list, a
`ResponseError` with status and body, or any other exception. -/
inductive ApiOutcome where
  | success (offers : List Offer)
  | responseError (status : Nat) (body : String)
  | otherError (msg : String)
deriving DecidableEq

/-- The query payload `params` built by `find_cheap_destinations`; the two
optional keys are present only when their argument is truthy. -/
structure QueryPayload where
  origin : String
  maxPrice : ℚ
  viewBy : String
  departureDate : Option String
  duration : Option Nat
deriving DecidableEq

/-- Python truthiness of an optional string (`None` and `''` are falsy). -/
def strTruthy : Option String → Bool
  | none => false
  | some s => s != ""

/-- Python truthiness of an optional integer (`None` and `0` are falsy). -/
def natTruthy : Option Nat → Bool
  | none => false
  | some n => n != 0

/-- The `params` dict construction of `find_cheap_destinations`: origin,
maxPrice and viewBy always, the optional keys only when truthy. -/
def buildParams (origin : String) (departure_date : Option String) (max_price : ℚ)
    (duration : Option Nat) : QueryPayload :=
  let base : QueryPayload :=
    { origin := origin, maxPrice := max_price, viewBy := "DESTINATION"
      departureDate := none, duration := none }
  let p1 := if strTruthy departure_date then { base with departureDate := departure_date } else base
  if natTruthy duration then { p1 with duration := duration } else p1

/-- Translation of `find_cheap_destinations`: build the payload, call the
capability once, return its data on success and `None` on `ResponseError` or on
any other exception (both `except` arms return `None`). -/
def find_cheap_destinations (api : QueryPayload → ApiOutcome) (origin : String)
    (departure_date : Option String) (max_price : ℚ) (duration : Option Nat) :
    Option (List Offer) :=
  match api (buildParams origin departure_date max_price duration) with
  | .success offers => some offers
  | .responseError _ _ => none
  | .otherError _ => none

/-- The ambient state of one run of `main`: the capability, the file on disk
before the run, the per-write-attempt I/O oracle, the run's wall-clock string
and the computed departure date (now + 7 days, a non-empty date string). -/
structure Env where
  api : QueryPayload → ApiOutcome
  fileBefore : Option CsvFile
  writeOk : Nat → Bool
  now : String
  departureDate : String

/-- Observable outcome of one run of `main`: the process exit code, the file on
disk afterwards, whether the "nothing found" notice was printed, how many
capability searches and how many persist calls were made, and the report
printed by `analyze_and_display` (when it ran). -/
structure RunResult where
  exitCode : Nat
  file : Option CsvFile
  nothingFoundNotice : Bool
  searchCalls : Nat
  saveCalls : Nat
  report : Option Report
deriving DecidableEq

/-- The payload `main` causes to be sent (fixed origin HKG, ceiling 3000,
computed departure date, no duration). -/
def mainParams (env : Env) : QueryPayload :=
  buildParams "HKG" (some env.departureDate) 3000 none

/-- The `else` branch of `main`: print the nothing-found notice, persist the
empty batch; if that write raises, run `main`'s `except` arm — a best-effort
second sentinel write whose own failure is suppressed — and `exit(1)`. -/
def emptyRunBranch (env : Env) : RunResult :=
  let s := save_results_to_csv [] env.now env.fileBefore (env.writeOk 0)
  if s.raised then
    let s2 := save_results_to_csv [] env.now s.file (env.writeOk 1)
    { exitCode := 1, file := s2.file, nothingFoundNotice := true
      searchCalls := 1, saveCalls := 2, report := none }
  else
    { exitCode := 0, file := s.file, nothingFoundNotice := true
      searchCalls := 1, saveCalls := 1, report := none }

/-- Translation of `main()` after client construction: search once; on a truthy
(non-`None`, non-empty) result persist then report; otherwise take the
empty-result branch.  A `save_results_to_csv` exception reaching `main` runs
the fallback write and exits 1; a run that falls through exits 0. -/
def mainRun (env : Env) : RunResult :=
  match find_cheap_destinations env.api "HKG" (some env.departureDate) 3000 none with
  | some offers =>
      if offers = [] then emptyRunBranch env
      else
        let s := save_results_to_csv offers env.now env.fileBefore (env.writeOk 0)
        if s.raised then
          let s2 := save_results_to_csv [] env.now s.file (env.writeOk 1)
          { exitCode := 1, file := s2.file, nothingFoundNotice := false
            searchCalls := 1, saveCalls := 2, report := none }
        else
          { exitCode := 0, file := s.file, nothingFoundNotice := false
            searchCalls := 1, saveCalls := 1, report := some (analyze_and_display s.df) }
  | none => emptyRunBranch env

/-- Number of data rows of the (possibly absent) output file. -/
def fileRowCount : Option CsvFile → Nat
  | none => 0
  | some f => f.rows.length

/-! ### Concrete fixtures used by witnesses and counterexamples -/

/-- The offer of E2E scenario A. -/
def offerTYO : Offer :=
  { destination := some "TYO", departureDate := some "2025-05-01"
    returnDate := some "2025-05-08", price := some ⟨some 2500⟩ }

/-- An offer with every sub-field missing. -/
def offerBlank : Offer :=
  { destination := none, departureDate := none, returnDate := none, price := none }

/-- A cheaper second offer, for sort-order witnesses. -/
def offerBKK : Offer :=
  { destination := some "BKK", departureDate := some "2025-05-02"
    returnDate := some "2025-05-09", price := some ⟨some 900⟩ }

/-- An offer whose capability-reported total is negative; the code passes the
total through with no clamp or sign check. -/
def offerNeg : Offer :=
  { destination := some "NEG", departureDate := some "2025-05-01"
    returnDate := none, price := some ⟨some (-5)⟩ }

/-- The three filtered records of property P4, in the given order 100, 300, 200. -/
def recA : FlightRecord :=
  { destination := "AAA", departure_date := "2025-05-01", return_date := "2025-05-08"
    price := 100, search_date := "2025-04-24 00:00:00" }

def recB : FlightRecord :=
  { destination := "BBB", departure_date := "2025-05-01", return_date := "2025-05-08"
    price := 300, search_date := "2025-04-24 00:00:00" }

def recC : FlightRecord :=
  { destination := "CCC", departure_date := "2025-05-01", return_date := "2025-05-08"
    price := 200, search_date := "2025-04-24 00:00:00" }

def df3 : List FlightRecord := [recA, recB, recC]

/-- An existing one-row output file. -/
def fileX : CsvFile := { header := recordHeader, rows := [recordRow recA] }

/-- A capability that always reports a status-429 error (E2E scenario B). -/
def apiRate : QueryPayload → ApiOutcome := fun _ => .responseError 429 "rate limited"

/-- A capability that always reports the one scenario-A offer. -/
def apiOne : QueryPayload → ApiOutcome := fun _ => .success [offerTYO]

/-- A capability that always reports zero offers. -/
def apiNone : QueryPayload → ApiOutcome := fun _ => .success []

/-- Scenario-B environment: rate-limited search, healthy disk, no prior file. -/
def envRate : Env :=
  { api := apiRate, fileBefore := none, writeOk := fun _ => true
    now := "2025-04-24 10:00:00", departureDate := "2025-05-01" }

/-- One offer found, but every write attempt fails. -/
def envFail : Env :=
  { api := apiOne, fileBefore := none, writeOk := fun _ => false
    now := "2025-04-24 10:00:00", departureDate := "2025-05-01" }

/-- No offers found and every write attempt fails. -/
def envEmptyFail : Env :=
  { api := apiNone, fileBefore := some fileX, writeOk := fun _ => false
    now := "2025-04-24 10:00:00", departureDate := "2025-05-01" }

/-- The file after a sentinel run on "t0" followed by a one-offer run on "t1". -/
def fileAfter : CsvFile :=
  { header := sentinelHeader
    rows := [sentinelRow "t0", recordRow (normalizeOffer "t1" offerTYO)] }

/-! ### Helper lemmas on the sort -/

/-- The sorted batch is non-decreasing in price. -/
theorem sorted_sortByPrice (l : List FlightRecord) : List.Sorted priceLE (sortByPrice l) :=
  List.sorted_insertionSort priceLE l

/-- Membership is preserved by the sort. -/
theorem mem_sortByPrice {l : List FlightRecord} {r : FlightRecord} :
    r ∈ sortByPrice l ↔ r ∈ l :=
  List.mem_insertionSort priceLE

/-- The sort keeps the batch size. -/
theorem length_sortByPrice (l : List FlightRecord) : (sortByPrice l).length = l.length :=
  List.length_insertionSort priceLE l

/-! ### Helper lemmas on the column statistics -/

theorem foldl_min_le_init (xs : List ℚ) (a : ℚ) : xs.foldl min a ≤ a := by
  induction xs generalizing a with
  | nil => simp
  | cons x xs ih => simpa using le_trans (ih (min a x)) (min_le_left a x)

theorem foldl_min_le_mem (xs : List ℚ) (a : ℚ) : ∀ y ∈ xs, xs.foldl min a ≤ y := by
  induction xs generalizing a with
  | nil => simp
  | cons x xs ih =>
      intro y hy
      rcases List.mem_cons.mp hy with rfl | hy2
      · simpa using le_trans (foldl_min_le_init xs (min a y)) (min_le_right a y)
      · simpa using ih (min a x) y hy2

theorem foldl_min_mem (xs : List ℚ) (a : ℚ) : xs.foldl min a = a ∨ xs.foldl min a ∈ xs := by
  induction xs generalizing a with
  | nil => left; rfl
  | cons x xs ih =>
      rcases ih (min a x) with h | h
      · rcases le_total a x with hax | hxa
        · left
          simp only [List.foldl_cons]
          rw [h, min_eq_left hax]
        · right
          simp only [List.foldl_cons]
          rw [h, min_eq_right hxa]
          exact List.mem_cons_self x xs
      · right; exact List.mem_cons_of_mem x (by simpa [List.foldl_cons] using h)

theorem init_le_foldl_max (xs : List ℚ) (a : ℚ) : a ≤ xs.foldl max a := by
  induction xs generalizing a with
  | nil => simp
  | cons x xs ih => simpa using le_trans (le_max_left a x) (ih (max a x))

theorem mem_le_foldl_max (xs : List ℚ) (a : ℚ) : ∀ y ∈ xs, y ≤ xs.foldl max a := by
  induction xs generalizing a with
  | nil => simp
  | cons x xs ih =>
      intro y hy
      rcases List.mem_cons.mp hy with rfl | hy2
      · simpa using le_trans (le_max_right a y) (init_le_foldl_max xs (max a y))
      · simpa using ih (max a x) y hy2

theorem foldl_max_mem (xs : List ℚ) (a : ℚ) : xs.foldl max a = a ∨ xs.foldl max a ∈ xs := by
  induction xs generalizing a with
  | nil => left; rfl
  | cons x xs ih =>
      rcases ih (max a x) with h | h
      · rcases le_total x a with hxa | hax
        · left; simpa [List.foldl_cons, max_eq_left hxa] using h
        · right
          simp only [List.foldl_cons] at h ⊢
          rw [h, max_eq_right hax]
          exact List.mem_cons_self x xs
      · right; exact List.mem_cons_of_mem x (by simpa [List.foldl_cons] using h)

theorem listMinQ_le (l : List ℚ) (hl : l ≠ []) : ∀ y ∈ l, listMinQ l ≤ y := by
  cases l with
  | nil => exact absurd rfl hl
  | cons x xs =>
      intro y hy
      rcases List.mem_cons.mp hy with rfl | hy2
      · exact foldl_min_le_init xs y
      · exact foldl_min_le_mem xs x y hy2

theorem listMinQ_mem (l : List ℚ) (hl : l ≠ []) : listMinQ l ∈ l := by
  cases l with
  | nil => exact absurd rfl hl
  | cons x xs =>
      rcases foldl_min_mem xs x with h | h
      · simp [listMinQ, h]
      · exact List.mem_cons_of_mem x h

theorem le_listMaxQ (l : List ℚ) (hl : l ≠ []) : ∀ y ∈ l, y ≤ listMaxQ l := by
  cases l with
  | nil => exact absurd rfl hl
  | cons x xs =>
      intro y hy
      rcases List.mem_cons.mp hy with rfl | hy2
      · exact init_le_foldl_max xs y
      · exact mem_le_foldl_max xs x y hy2

theorem listMaxQ_mem (l : List ℚ) (hl : l ≠ []) : listMaxQ l ∈ l := by
  cases l with
  | nil => exact absurd rfl hl
  | cons x xs =>
      rcases foldl_max_mem xs x with h | h
      · simp [listMaxQ, h]
      · exact List.mem_cons_of_mem x h

theorem listMeanQ_mul_length (l : List ℚ) (hl : l ≠ []) :
    listMeanQ l * (l.length : ℚ) = l.sum := by
  have hlen : (l.length : ℚ) ≠ 0 := by
    exact_mod_cast (List.length_pos.mpr hl).ne'
  simp [listMeanQ, div_mul_cancel₀ _ hlen]

/-! ### The non-empty persist path, in closed form -/

/-- For a non-empty batch, `save_results_to_csv` returns the price-sorted batch
and either appends its rows to the existing file (header untouched) or creates
the file with the five-column header. -/
theorem save_nonempty_eq (data : List Offer) (now : String) (fs : Option CsvFile)
    (h : data ≠ []) :
    save_results_to_csv data now fs true =
      { df := some (sortByPrice (data.map (normalizeOffer now)))
        file := some { header := fs.elim recordHeader CsvFile.header
                       rows := (fs.elim [] CsvFile.rows)
                         ++ (sortByPrice (data.map (normalizeOffer now))).map recordRow }
        raised := false } := by
  cases fs <;> simp [save_results_to_csv, h, Option.elim]

/-! ### Claim theorems -/

/-- C2: persisting an empty batch always writes a fresh file — whatever file
existed before — consisting of the header plus exactly one data row, the
sentinel with destination "No data found" and price 0. -/
theorem c2_save_empty_sentinel (now : String) (fs : Option CsvFile) :
    save_results_to_csv [] now fs true
        = { df := some [sentinelRecord now], file := some (sentinelFile now), raised := false }
    ∧ sentinelFile now = { header := sentinelHeader, rows := [sentinelRow now] }
    ∧ (sentinelFile now).rows.length = 1
    ∧ (sentinelRecord now).destination = "No data found"
    ∧ (sentinelRecord now).price = 0 := by
  exact ⟨by simp [save_results_to_csv], rfl, rfl, rfl, rfl⟩

/-- C3: a non-empty batch appends to an existing file without touching its
header, or creates the file with the header; either way the data-row count
grows by exactly the batch size. -/
theorem c3_save_appends (data : List Offer) (now : String) (fs : Option CsvFile)
    (h : data ≠ []) :
    (save_results_to_csv data now fs true).file
        = some { header := fs.elim recordHeader CsvFile.header
                 rows := (fs.elim [] CsvFile.rows)
                   ++ (sortByPrice (data.map (normalizeOffer now))).map recordRow }
    ∧ fileRowCount (save_results_to_csv data now fs true).file
        = fileRowCount fs + data.length := by
  rw [save_nonempty_eq data now fs h]
  refine ⟨rfl, ?_⟩
  cases fs <;> simp [fileRowCount, Option.elim, length_sortByPrice]

/-- Witness for C3: one offer appended to an existing one-row file gives two
rows, and onto no file gives a fresh one-row file with the five-column header. -/
theorem c3_save_appends_witness :
    ([offerTYO] ≠ ([] : List Offer))
    ∧ fileRowCount (save_results_to_csv [offerTYO] "t1" (some fileX) true).file
        = fileRowCount (some fileX) + 1
    ∧ (save_results_to_csv [offerTYO] "t1" (some fileX) true).file
        = some { header := fileX.header
                 rows := fileX.rows
                   ++ (sortByPrice ([offerTYO].map (normalizeOffer "t1"))).map recordRow } :=
  ⟨by decide,
   (c3_save_appends [offerTYO] "t1" (some fileX) (by decide)).2,
   (c3_save_appends [offerTYO] "t1" (some fileX) (by decide)).1⟩

/-- C4 counterexample: the Reporter does not sort.  On the concrete filtered
batch with prices 100, 300, 200 the listing keeps the input order, so "prints
the first 10 records in price-ascending order" fails as a property of the
Reporter. -/
theorem c4_reporter_not_sorted_cex :
    ¬ (∀ l : List FlightRecord,
        (analyze_and_display (some l)).noData = false →
        List.Sorted priceLE (analyze_and_display (some l)).displayed) := by
  intro h
  have h3 := h df3 (by decide)
  have hns : ¬ List.Sorted priceLE (analyze_and_display (some df3)).displayed := by
    simp only [List.Sorted]
    decide
  exact hns h3

/-- C4 (amended): the Reporter filters out the sentinel rows before any
computation; when nothing valid remains (or the input is missing or empty) it
prints a no-data notice and returns; otherwise it prints at most the first 10
filtered records in their existing input order — price-ascending exactly when
the input is already sorted, as when it comes from the Persister — and reports
the count, minimum, maximum and arithmetic mean of price over the filtered set
only. -/
theorem c4_reporter_amended (l : List FlightRecord) :
    analyze_and_display none = emptyReport
    ∧ (validRecords l = [] → analyze_and_display (some l) = emptyReport)
    ∧ (validRecords l ≠ [] →
        (analyze_and_display (some l)).noData = false
        ∧ (analyze_and_display (some l)).displayed = (validRecords l).take 10
        ∧ (analyze_and_display (some l)).displayed.length ≤ 10
        ∧ (∀ r ∈ (analyze_and_display (some l)).displayed, r.destination ≠ "No data found")
        ∧ (analyze_and_display (some l)).count = (validRecords l).length
        ∧ (∀ r ∈ validRecords l,
            (analyze_and_display (some l)).minPrice ≤ r.price
            ∧ r.price ≤ (analyze_and_display (some l)).maxPrice)
        ∧ (analyze_and_display (some l)).minPrice ∈ (validRecords l).map (fun r => r.price)
        ∧ (analyze_and_display (some l)).maxPrice ∈ (validRecords l).map (fun r => r.price)
        ∧ (analyze_and_display (some l)).meanPrice * ((analyze_and_display (some l)).count : ℚ)
            = ((validRecords l).map (fun r => r.price)).sum
        ∧ (List.Sorted priceLE l →
            List.Sorted priceLE (analyze_and_display (some l)).displayed)) := by
  refine ⟨rfl, fun hv => ?_, fun hv => ?_⟩
  · by_cases hl : l = []
    · simp [analyze_and_display, hl]
    · simp [analyze_and_display, hl, hv]
  · have hl : l ≠ [] := by
      intro he
      exact hv (by simp [he, validRecords])
    have heq : analyze_and_display (some l)
        = { noData := false
            displayed := (validRecords l).take 10
            count := (validRecords l).length
            minPrice := listMinQ ((validRecords l).map (fun r => r.price))
            maxPrice := listMaxQ ((validRecords l).map (fun r => r.price))
            meanPrice := listMeanQ ((validRecords l).map (fun r => r.price)) } := by
      simp [analyze_and_display, hl, hv]
    have hmapne : (validRecords l).map (fun r => r.price) ≠ [] := by
      simpa using hv
    refine ⟨by rw [heq], by rw [heq], ?_, ?_, by rw [heq], ?_, ?_, ?_, ?_, ?_⟩
    · rw [heq]
      exact List.length_take_le 10 (validRecords l)
    · intro r hr
      rw [heq] at hr
      have hr2 : r ∈ validRecords l := List.mem_of_mem_take hr
      have hr3 := List.mem_filter.mp hr2
      simpa using hr3.2
    · intro r hr
      rw [heq]
      exact ⟨listMinQ_le _ hmapne r.price (List.mem_map_of_mem _ hr),
        le_listMaxQ _ hmapne r.price (List.mem_map_of_mem _ hr)⟩
    · rw [heq]
      exact listMinQ_mem _ hmapne
    · rw [heq]
      exact listMaxQ_mem _ hmapne
    · rw [heq]
      have := listMeanQ_mul_length ((validRecords l).map (fun r => r.price)) hmapne
      simpa [List.length_map] using this
    · intro hs
      rw [heq]
      exact (hs.filter _).sublist (List.take_sublist 10 (validRecords l))

/-- Witness for the amended C4 at the P4 batch: count 3, min 100, max 300,
mean 200, all three listed (in input order). -/
theorem c4_reporter_amended_witness :
    validRecords df3 ≠ []
    ∧ (analyze_and_display (some df3)).noData = false
    ∧ (analyze_and_display (some df3)).count = 3
    ∧ (analyze_and_display (some df3)).minPrice = 100
    ∧ (analyze_and_display (some df3)).maxPrice = 300
    ∧ (analyze_and_display (some df3)).meanPrice = 200
    ∧ (analyze_and_display (some df3)).displayed = df3 :=
  ⟨by decide, ((c4_reporter_amended df3).2.2 (by decide)).1, by decide, by decide,
   by decide,
   by
     have h1 : (analyze_and_display (some df3)).meanPrice
         = listMeanQ ((validRecords df3).map (fun r => r.price)) := rfl
     have h2 : validRecords df3 = df3 := by decide
     rw [h1, h2, listMeanQ]
     norm_num [df3, recA, recB, recC],
   by decide⟩

/-- C5: every Search Executor failure — a capability-reported `ResponseError`
or any other exception — sends the pipeline to the empty-result branch: the
output file ends as the single-sentinel-row file, the nothing-found notice is
printed, the capability is consulted exactly once (no retry), and the exit
code is 0. -/
theorem c5_search_failure_nonfatal (env : Env)
    (h : (∃ s b, env.api (mainParams env) = .responseError s b)
        ∨ (∃ m, env.api (mainParams env) = .otherError m))
    (hw : env.writeOk 0 = true) :
    mainRun env
      = { exitCode := 0, file := some (sentinelFile env.now), nothingFoundNotice := true
          searchCalls := 1, saveCalls := 1, report := none } := by
  have hfind : find_cheap_destinations env.api "HKG" (some env.departureDate) 3000 none
      = none := by
    rcases h with ⟨s, b, hh⟩ | ⟨m, hh⟩ <;> rw [mainParams] at hh <;>
      simp [find_cheap_destinations, hh]
  simp [mainRun, hfind, emptyRunBranch, save_results_to_csv, hw]

/-- Witness for C5: E2E scenario B, a simulated status-429 failure. -/
theorem c5_search_failure_nonfatal_witness :
    envRate.api (mainParams envRate) = .responseError 429 "rate limited"
    ∧ envRate.writeOk 0 = true
    ∧ mainRun envRate
        = { exitCode := 0, file := some (sentinelFile "2025-04-24 10:00:00")
            nothingFoundNotice := true, searchCalls := 1, saveCalls := 1, report := none } :=
  ⟨rfl, rfl,
   c5_search_failure_nonfatal envRate (Or.inl ⟨429, "rate limited", rfl⟩) rfl⟩

/-- C6 counterexample: one offer is found but the disk write fails; the
failure is caught inside the persister, no fallback write happens, and the run
still exits 0 — refuting "a persist failure always triggers a fallback attempt
and is never absorbed into a zero exit". -/
theorem c6_persist_failure_cex :
    ¬ (∀ env : Env, env.writeOk 0 = false →
        2 ≤ (mainRun env).saveCalls
        ∧ (env.writeOk 1 = false → (mainRun env).exitCode ≠ 0)) := by
  intro h
  have h2 := (h envFail rfl).1
  have hs : (mainRun envFail).saveCalls = 1 := by decide
  rw [hs] at h2
  exact absurd h2 (by decide)

/-- C6 (amended): a write failure on the empty-offers path escapes the
persister; `main` then logs it, makes one best-effort fallback sentinel write
whose own failure is suppressed, and exits 1.  A write failure on the
non-empty path is caught inside `save_results_to_csv`: the run logs it,
leaves the file unchanged, attempts no fallback, and exits 0. -/
theorem c6_persist_failure_amended (env : Env) :
    (∀ offers, env.api (mainParams env) = .success offers → offers ≠ [] →
        env.writeOk 0 = false →
        mainRun env
          = { exitCode := 0, file := env.fileBefore, nothingFoundNotice := false
              searchCalls := 1, saveCalls := 1, report := some emptyReport })
    ∧ ((env.api (mainParams env) = .success []
          ∨ (∃ s b, env.api (mainParams env) = .responseError s b)
          ∨ (∃ m, env.api (mainParams env) = .otherError m)) →
        env.writeOk 0 = false →
        (mainRun env).exitCode = 1
        ∧ (mainRun env).saveCalls = 2
        ∧ (env.writeOk 1 = true → (mainRun env).file = some (sentinelFile env.now))
        ∧ (env.writeOk 1 = false → (mainRun env).file = env.fileBefore)) := by
  constructor
  · intro offers hapi hne hw
    rw [mainParams] at hapi
    simp [mainRun, find_cheap_destinations, hapi, hne, save_results_to_csv, hw,
      analyze_and_display]
  · intro hapi hw
    have hbranch : mainRun env = emptyRunBranch env := by
      rcases hapi with hh | ⟨s, b, hh⟩ | ⟨m, hh⟩ <;> rw [mainParams] at hh <;>
        simp [mainRun, find_cheap_destinations, hh]
    cases hw1 : env.writeOk 1 <;>
      simp [hbranch, emptyRunBranch, save_results_to_csv, hw, hw1]

/-- Witness for the amended C6: the failing-disk one-offer run exits 0 with a
single persist call and an unchanged (absent) file. -/
theorem c6_persist_failure_amended_witness :
    envFail.writeOk 0 = false
    ∧ mainRun envFail
        = { exitCode := 0, file := none, nothingFoundNotice := false
            searchCalls := 1, saveCalls := 1, report := some emptyReport } :=
  ⟨rfl, (c6_persist_failure_amended envFail).1 [offerTYO] rfl (by decide) rfl⟩

/-- C7: normalizing an offer never fails, the two date fields default to the
empty string, the price defaults to zero when the price object or its total is
missing, and present sub-fields pass through unchanged. -/
theorem c7_normalize_defaults (now : String) (o : Offer) :
    (o.departureDate = none → (normalizeOffer now o).departure_date = "")
    ∧ (o.returnDate = none → (normalizeOffer now o).return_date = "")
    ∧ (o.price = none → (normalizeOffer now o).price = 0)
    ∧ (∀ p, o.price = some p → p.total = none → (normalizeOffer now o).price = 0)
    ∧ (∀ p t, o.price = some p → p.total = some t → (normalizeOffer now o).price = t)
    ∧ (∀ d, o.departureDate = some d → (normalizeOffer now o).departure_date = d)
    ∧ (∀ d, o.returnDate = some d → (normalizeOffer now o).return_date = d) := by
  refine ⟨fun h => ?_, fun h => ?_, fun h => ?_, fun p hp ht => ?_, fun p t hp ht => ?_,
    fun d hd => ?_, fun d hd => ?_⟩ <;>
    simp [normalizeOffer, *]

/-- Witness for C7 at the all-fields-missing offer. -/
theorem c7_normalize_defaults_witness :
    (normalizeOffer "t" offerBlank).departure_date = ""
    ∧ (normalizeOffer "t" offerBlank).return_date = ""
    ∧ (normalizeOffer "t" offerBlank).price = 0 :=
  ⟨(c7_normalize_defaults "t" offerBlank).1 rfl,
   (c7_normalize_defaults "t" offerBlank).2.1 rfl,
   (c7_normalize_defaults "t" offerBlank).2.2.1 rfl⟩

/-- C8 counterexample: the categorical invariant "every persisted record has
price >= 0" fails, because normalization passes the capability-reported total
through with no clamp or sign check: an offer whose total is -5 is persisted
with price -5. -/
theorem c8_price_invariant_cex :
    ¬ (∀ (data : List Offer) (now : String) (fs : Option CsvFile) (wk : Bool)
        (df : List FlightRecord), (save_results_to_csv data now fs wk).df = some df →
        ∀ r ∈ df, 0 ≤ r.price ∧ r.search_date = now) := by
  intro h
  have h2 := h [offerNeg] "t" none true
    (sortByPrice ([offerNeg].map (normalizeOffer "t"))) (by decide)
    (normalizeOffer "t" offerNeg) (by decide)
  exact absurd h2.1 (by decide)

/-- C8 (amended): whatever the prior file state and disk outcome, every record
a persist call returns — sentinel or normal — has a non-negative price
provided the capability reports only non-negative totals (the code persists
reported totals unchanged, with no clamp, so the invariant is conditional on
the capability), and carries the run's wall-clock timestamp as its search
date, never backdated. -/
theorem c8_record_invariants (data : List Offer) (now : String) (fs : Option CsvFile)
    (wk : Bool)
    (hnn : ∀ o ∈ data, ∀ p, o.price = some p → ∀ t, p.total = some t → (0 : ℚ) ≤ t) :
    ∀ df, (save_results_to_csv data now fs wk).df = some df →
      ∀ r ∈ df, 0 ≤ r.price ∧ r.search_date = now := by
  intro df hdf r hr
  by_cases hd : data = []
  · subst hd
    cases wk with
    | true =>
        simp [save_results_to_csv] at hdf
        rw [← hdf] at hr
        have : r = sentinelRecord now := by simpa using hr
        subst this
        exact ⟨le_refl 0, rfl⟩
    | false => simp [save_results_to_csv] at hdf
  · cases wk with
    | true =>
        have hdf2 : df = sortByPrice (data.map (normalizeOffer now)) := by
          cases fs <;> simp [save_results_to_csv, hd] at hdf <;> exact hdf.symm
        rw [hdf2] at hr
        rcases List.mem_map.mp (mem_sortByPrice.mp hr) with ⟨o, ho, hro⟩
        subst hro
        refine ⟨?_, rfl⟩
        cases hp : o.price with
        | none => simp [normalizeOffer, hp]
        | some p =>
            cases ht : p.total with
            | none => simp [normalizeOffer, hp, ht]
            | some t =>
                have := hnn o ho p hp t ht
                simpa [normalizeOffer, hp, ht] using this
    | false => simp [save_results_to_csv, hd] at hdf

/-- Witness for C8 at the scenario-A offer. -/
theorem c8_record_invariants_witness :
    0 ≤ (normalizeOffer "t" offerTYO).price
    ∧ (normalizeOffer "t" offerTYO).search_date = "t" := by
  have h := c8_record_invariants [offerTYO] "t" none true
    (by
      intro o ho p hp t ht
      have ho2 : o = offerTYO := by simpa using ho
      subst ho2
      have hp2 : p = (⟨some 2500⟩ : OfferPrice) := by
        have : some (⟨some 2500⟩ : OfferPrice) = some p := hp
        exact (Option.some.injEq _ _ ▸ this).symm
      subst hp2
      have ht2 : t = (2500 : ℚ) := by
        have : some (2500 : ℚ) = some t := ht
        exact (Option.some.injEq _ _ ▸ this).symm
      subst ht2
      decide)
    [normalizeOffer "t" offerTYO] (by decide) (normalizeOffer "t" offerTYO) (by simp)
  exact h

/-- C9: the Search Executor returns the capability's reported offer sequence
unchanged on success and `None` on a capability-reported error or on any other
exception — it never propagates an exception — and falsy optional arguments
(`None`, an empty departure date, a zero duration) are omitted from the query
payload while truthy ones are sent through. -/
theorem c9_find_total (api : QueryPayload → ApiOutcome) (origin : String)
    (dd : Option String) (mp : ℚ) (dur : Option Nat) :
    (∀ offers, api (buildParams origin dd mp dur) = .success offers →
        find_cheap_destinations api origin dd mp dur = some offers)
    ∧ (∀ s b, api (buildParams origin dd mp dur) = .responseError s b →
        find_cheap_destinations api origin dd mp dur = none)
    ∧ (∀ m, api (buildParams origin dd mp dur) = .otherError m →
        find_cheap_destinations api origin dd mp dur = none)
    ∧ (find_cheap_destinations api origin dd mp dur = none
        ∨ ∃ offers, api (buildParams origin dd mp dur) = .success offers
            ∧ find_cheap_destinations api origin dd mp dur = some offers)
    ∧ (buildParams origin (some "") mp (some 0)).departureDate = none
    ∧ (buildParams origin (some "") mp (some 0)).duration = none
    ∧ (buildParams origin none mp none).departureDate = none
    ∧ (buildParams origin none mp none).duration = none
    ∧ (∀ s, s ≠ "" → (buildParams origin (some s) mp dur).departureDate = some s)
    ∧ (∀ n, n ≠ 0 → (buildParams origin dd mp (some n)).duration = some n) := by
  refine ⟨fun offers h => ?_, fun s b h => ?_, fun m h => ?_, ?_, ?_, ?_, ?_, ?_,
    fun s hs => ?_, fun n hn => ?_⟩
  · simp [find_cheap_destinations, h]
  · simp [find_cheap_destinations, h]
  · simp [find_cheap_destinations, h]
  · cases h : api (buildParams origin dd mp dur) with
    | success offers => exact Or.inr ⟨offers, rfl, by simp [find_cheap_destinations, h]⟩
    | responseError s b => exact Or.inl (by simp [find_cheap_destinations, h])
    | otherError m => exact Or.inl (by simp [find_cheap_destinations, h])
  · simp [buildParams, strTruthy, natTruthy]
  · simp [buildParams, strTruthy, natTruthy]
  · simp [buildParams, strTruthy, natTruthy]
  · simp [buildParams, strTruthy, natTruthy]
  · cases hdur : natTruthy dur <;> simp [buildParams, strTruthy, hs, hdur]
  · cases hdd : strTruthy dd <;> simp [buildParams, natTruthy, hn, hdd]

/-- Witness for C9: a concrete success passes the offers through unchanged,
and the falsy optional arguments vanish from the payload. -/
theorem c9_find_total_witness :
    apiOne (buildParams "HKG" (some "2025-05-01") 3000 none) = .success [offerTYO]
    ∧ find_cheap_destinations apiOne "HKG" (some "2025-05-01") 3000 none = some [offerTYO]
    ∧ (buildParams "HKG" (some "") 3000 (some 0)).departureDate = none
    ∧ (buildParams "HKG" (some "") 3000 (some 0)).duration = none :=
  ⟨rfl,
   (c9_find_total apiOne "HKG" (some "2025-05-01") 3000 none).1 [offerTYO] rfl,
   (c9_find_total apiOne "HKG" (some "2025-05-01") 3000 none).2.2.2.2.1,
   (c9_find_total apiOne "HKG" (some "2025-05-01") 3000 none).2.2.2.2.2.1⟩

/-- C10: the sentinel row has six cells while a normal record row has five, so
a file created by a sentinel run carries the six-column header and every row a
subsequent non-empty run appends to it has one cell fewer than that header has
columns. -/
theorem c10_schema_mismatch (now later : String) (data : List Offer) (h : data ≠ []) :
    (sentinelRow now).length = 6
    ∧ (∀ r, (recordRow r).length = 5)
    ∧ (save_results_to_csv [] now none true).file = some (sentinelFile now)
    ∧ (sentinelFile now).header.length = 6
    ∧ ∀ f2, (save_results_to_csv data later (some (sentinelFile now)) true).file = some f2 →
        f2.header.length = 6
        ∧ f2.rows.length = 1 + data.length
        ∧ ∀ row ∈ f2.rows.drop 1, row.length + 1 = f2.header.length := by
  refine ⟨rfl, fun r => rfl, by simp [save_results_to_csv], rfl, ?_⟩
  intro f2 hf2
  rw [save_nonempty_eq data later (some (sentinelFile now)) h] at hf2
  simp only [Option.some.injEq] at hf2
  subst hf2
  refine ⟨rfl, ?_, ?_⟩
  · simp [sentinelFile, Option.elim, length_sortByPrice]
    omega
  · intro row hrow
    have hrow2 : row ∈ (sortByPrice (data.map (normalizeOffer later))).map recordRow := by
      simpa [sentinelFile, Option.elim] using hrow
    rcases List.mem_map.mp hrow2 with ⟨r, _, hr⟩
    subst hr
    rfl

/-- Witness for C10: after a sentinel run and then a one-offer run the file
has the six-column header, two rows, and its appended row has five cells. -/
theorem c10_schema_mismatch_witness :
    ([offerTYO] ≠ ([] : List Offer))
    ∧ (save_results_to_csv [offerTYO] "t1" (some (sentinelFile "t0")) true).file
        = some fileAfter
    ∧ fileAfter.header.length = 6
    ∧ fileAfter.rows.length = 1 + 1
    ∧ ∀ row ∈ fileAfter.rows.drop 1, row.length + 1 = fileAfter.header.length :=
  ⟨by decide, by decide,
   ((c10_schema_mismatch "t0" "t1" [offerTYO] (by decide)).2.2.2.2 fileAfter (by decide)).1,
   ((c10_schema_mismatch "t0" "t1" [offerTYO] (by decide)).2.2.2.2 fileAfter (by decide)).2.1,
   ((c10_schema_mismatch "t0" "t1" [offerTYO] (by decide)).2.2.2.2 fileAfter (by decide)).2.2⟩

end FlightMonitor
